import Mathlib

/-
Verification of the Rule Applicability & Cached Operation Pipeline of the
cdisc-rules-engine repository (cdisc_rules_engine/utilities/rule_processor.py and
cdisc_rules_engine/dataset_builders/base_dataset_builder.py), as a shallow
embedding in Lean 4.

Python dictionaries, pandas dataframes and the in-memory cache are modelled by
explicit Lean structures; in-place mutation is modelled by explicit state
passing (functions return the updated objects); Python exceptions are modelled
by the Except monad.  Helpers that live outside the provided sources
(utilities/utils.py, constants, the condition-composite model, the cache and
data services) are modelled from the specification; each such definition
carries a doc comment starting with "Modelled from the spec:".
-/

/-- A cell of a tabular dataset: the Python scalar values the verified code
inspects (None, int, str). -/
inductive CellVal where
  | vnone : CellVal
  | vint : Int → CellVal
  | vstr : String → CellVal
deriving DecidableEq, Repr

/-- A pandas DataFrame, modelled columnar: an ordered association list from
column name to the list of cell values (one per row, positional index). -/
structure DataFrame where
  cols : List (String × List CellVal)
deriving DecidableEq, Repr

/-- Column lookup: the values of the named column, if present. -/
def DataFrame.colOpt (df : DataFrame) (name : String) : Option (List CellVal) :=
  (df.cols.find? (fun p => p.fst == name)).map Prod.snd

/-- Python `name in dataframe`: membership tests column labels. -/
def DataFrame.hasCol (df : DataFrame) (name : String) : Bool :=
  df.cols.any (fun p => p.fst == name)

/-- Number of rows (length of the first column; 0 for a column-free frame). -/
def DataFrame.rowCount (df : DataFrame) : Nat :=
  match df.cols with
  | [] => 0
  | p :: _ => p.snd.length

/-- Column assignment on the column list: replace the named column in place if
it exists, otherwise append it at the end (pandas `df[name] = vals`). -/
def setColList : List (String × List CellVal) → String → List CellVal → List (String × List CellVal)
  | [], name, vals => [(name, vals)]
  | p :: rest, name, vals =>
    if p.fst == name then (name, vals) :: rest
    else p :: setColList rest name vals

/-- Pandas `df[name] = vals` at the DataFrame level. -/
def DataFrame.setCol (df : DataFrame) (name : String) (vals : List CellVal) : DataFrame :=
  ⟨setColList df.cols name vals⟩

/-- Column names in order. -/
def DataFrame.colNames (df : DataFrame) : List String :=
  df.cols.map Prod.fst

/-- Python exceptions the embedded code can raise. -/
inductive PyErr where
  | keyError : String → PyErr
  | valueError : String → PyErr
  | typeError : String → PyErr
  | attributeError : String → PyErr
deriving DecidableEq, Repr

/-- Prefix test on strings by their character lists (String.startsWith, kept
kernel-reducible). -/
def strStartsWith (s p : String) : Bool :=
  p.data.isPrefixOf s.data

/-- Modelled from the spec: constants.domains.AP_DOMAIN, the associated-persons
domain prefix. -/
def AP_DOMAIN : String := "AP"

/-- Modelled from the spec: constants.domains.APFA_DOMAIN, the associated
persons findings-about domain prefix. -/
def APFA_DOMAIN : String := "APFA"

/-- Modelled from the spec: constants.domains.SUPPLEMENTARY_DOMAINS; the spec
names the SUPP supplementary-domain family ("SUPP-prefixed", generic entry
"SUPP--"). -/
def SUPPLEMENTARY_DOMAINS : List String := ["SUPP"]

/-- Modelled from the spec: utilities.utils.is_supp_domain — the domain matches
the supplementary-domain naming rule when it is SUPP-prefixed. -/
def is_supp_domain (dataset_domain : String) : Bool :=
  strStartsWith dataset_domain "SUPP"

/-- Modelled from the spec: utilities.utils.is_ap_domain — the domain matches
the associated-persons naming rule when it is AP- or APFA-prefixed, or is the
literal APRELSUB. -/
def is_ap_domain (dataset_domain : String) : Bool :=
  strStartsWith dataset_domain AP_DOMAIN || strStartsWith dataset_domain APFA_DOMAIN ||
    dataset_domain == "APRELSUB"

/-- Modelled from the spec: constants.classes.DETECTABLE_CLASSES, the dataset
classes the system can actually detect; the spec names Events and
Interventions as the example classes. -/
def DETECTABLE_CLASSES : List String := ["Events", "Interventions"]

/-- The rule's `domains` record: inclusion and exclusion domain-name lists plus
the optional split-dataset policy flag (absent key modelled as none). -/
structure DomainsSpec where
  Include : List String
  Exclude : List String
  include_split_datasets : Option Bool
deriving DecidableEq, Repr

/-- The rule's `classes` record: inclusion and exclusion class-name lists. -/
structure ClassesSpec where
  Include : List String
  Exclude : List String
deriving DecidableEq, Repr

/-- The `value` record of a leaf condition: `target` (modelled optional: a
missing "target" key raises on direct subscription) and optional
`comparator`. -/
structure ConditionValue where
  target : Option String
  comparator : Option String
deriving DecidableEq, Repr

/-- A leaf of the condition tree: `name`, optional `operator` and the `value`
record (present on every leaf per the data-model invariant). -/
structure Condition where
  name : String
  operator : Option String
  value : ConditionValue
deriving DecidableEq, Repr

/-- Modelled from the spec: the ConditionComposite of
models/rule_conditions — the condition tree as a top-level composite keyed by
the ANY/ALL branch names, each holding an ordered list of leaf conditions;
`items()` yields the branches and `values()` walks every leaf in branch
order. -/
structure ConditionComposite where
  branches : List (String × List Condition)
deriving DecidableEq, Repr

/-- Modelled from the spec: ConditionInterface.values() — every leaf condition,
in branch order then leaf order. -/
def ConditionComposite.valuesList (cc : ConditionComposite) : List Condition :=
  cc.branches.foldr (fun b acc => b.snd ++ acc) []

/-- One operation declaration of a rule: id, operator (capability name), name
(output/target column), optional domain override and optional grouping-column
list (`group` absent vs present, matching dict-key presence: `get` with a
fresh `[]` default). -/
structure Operation where
  id : String
  operator : String
  name : String
  domain : Option String
  group : Option (List String)
deriving DecidableEq, Repr

/-- The slice of a rule read by the verified components: `domains`, `classes`,
`conditions`, `operations` and `output_variables` (absent keys modelled by
none / the empty list defaults the code applies). -/
structure Rule where
  domains : Option DomainsSpec
  classes : Option ClassesSpec
  conditions : ConditionComposite
  operations : List Operation
  output_variables : List String
deriving DecidableEq, Repr

/-- RuleProcessor._domain_in_supp_domains: whether the given domain list
contains a generic supplementary entry (a SUPPLEMENTARY_DOMAINS member
suffixed by "--"). -/
def domain_in_supp_domains (domains : List String) : Bool :=
  let supp_domains := SUPPLEMENTARY_DOMAINS.map (fun domain => domain ++ "--")
  domains.any (fun domain => supp_domains.contains domain)

/-- RuleProcessor.rule_applies_to_domain: the domain gate.  Straight-line
translation of the imperative flow: `is_included` and `is_excluded` are
initialised, conditionally updated by the include block, the exclude block and
the two split-dataset overrides in order, and conjoined at the end. -/
def rule_applies_to_domain (dataset_domain : String) (rule : Rule) (is_split_domain : Bool) : Bool :=
  let domains := rule.domains.getD ⟨[], [], none⟩
  let included_domains := domains.Include
  let excluded_domains := domains.Exclude
  let include_split_datasets := domains.include_split_datasets
  let is_included_0 :=
    if !included_domains.isEmpty then
      if !included_domains.contains dataset_domain && !included_domains.contains "All" then
        let matches_supp_naming := is_supp_domain dataset_domain && domain_in_supp_domains included_domains
        let matches_ap_naming := included_domains.any (fun included_domain =>
          is_ap_domain dataset_domain &&
            (included_domain == AP_DOMAIN ++ "--" || included_domain == APFA_DOMAIN ++ "--"))
        matches_supp_naming || matches_ap_naming
      else true
    else if include_split_datasets == some true && !is_split_domain then false
    else true
  let is_excluded_0 :=
    if !excluded_domains.isEmpty then
      let base := excluded_domains.contains dataset_domain || excluded_domains.contains "All"
      let matches_supp_naming := is_supp_domain dataset_domain && domain_in_supp_domains excluded_domains
      let matches_ap_naming := excluded_domains.any (fun excluded_domain =>
        is_ap_domain dataset_domain &&
          (excluded_domain == AP_DOMAIN ++ "--" || excluded_domain == APFA_DOMAIN ++ "--"))
      base || matches_supp_naming || matches_ap_naming
    else false
  let is_included :=
    if include_split_datasets == some true && is_split_domain && !is_excluded_0 then true
    else is_included_0
  let is_excluded :=
    if include_split_datasets == some false && is_split_domain then true
    else is_excluded_0
  is_included && !is_excluded

/-- A dataset descriptor of the validation run: domain code and filename (the
fields the verified code reads). -/
structure DatasetDescriptor where
  domain : String
  filename : String
deriving DecidableEq, Repr

/-- Modelled from the spec: the external data service — `get_dataset` resolves
a file path to a dataset, `get_dataset_class` yields the detected class of the
current dataset (or absent), and the no-op/placeholder ("dummy") mode is a
property of the service (DataProcessor.is_dummy_data). -/
structure DataService where
  datasets_by_path : String → DataFrame
  dataset_class : Option String
  is_dummy : Bool

/-- RuleProcessor.rule_applies_to_class: the class gate.  Undetectable
included classes are filtered out; each non-empty list triggers one
get_dataset plus get_dataset_class round trip against the data service
(modelled by self.dataset_class, the detected class of the dataset at
file_path among the run's datasets).  Besides the decision, the second
component counts those class fetches. -/
def rule_applies_to_class (self : DataService) (rule : Rule) (file_path : String)
    (datasets : List DatasetDescriptor) : Bool × Nat :=
  let classes := rule.classes.getD ⟨[], []⟩
  let included_classes := (classes.Include).filter (fun c => DETECTABLE_CLASSES.contains c)
  let excluded_classes := classes.Exclude
  let (is_included, fetches_inc) :=
    if !included_classes.isEmpty then
      let dataset := self.datasets_by_path file_path
      let class_name := self.dataset_class
      let hit :=
        match class_name with
        | some c => included_classes.contains c
        | none => false
      (hit || included_classes.contains "All", 1)
    else (true, 0)
  let (is_excluded, fetches_exc) :=
    if !excluded_classes.isEmpty then
      let dataset := self.datasets_by_path file_path
      let class_name := self.dataset_class
      let hit :=
        match class_name with
        | some c => c != "" && excluded_classes.contains c
        | none => false
      (hit, 1)
    else (false, 0)
  (is_included && !is_excluded, fetches_inc + fetches_exc)

/-- Python truthiness of a string (empty is falsy). -/
def truthyStr (s : String) : Bool :=
  s != ""

/-- RuleProcessor.add_comparator_to_rule_conditions on one leaf: compute
`comparator_to_add` (from the comparator mapping if that argument is truthy,
else by prefixing the target if the prefix argument is truthy, else None) and
set `value.comparator` when the computed value is truthy.  Direct subscription
of a missing "target" key raises KeyError. -/
def add_comparator_to_condition (comparator : Option (List (String × String)))
    (pfx : Option String) (condition : Condition) : Except PyErr Condition :=
  let value := condition.value
  let comparator_to_add : Except PyErr (Option String) :=
    if (comparator.map (fun m => !m.isEmpty)).getD false then
      match value.target with
      | none => .error (.keyError "target")
      | some t => .ok (((comparator.getD []).find? (fun p => p.fst == t)).map Prod.snd)
    else if (pfx.map truthyStr).getD false then
      match value.target with
      | none => .error (.keyError "target")
      | some t => .ok (some (pfx.getD "" ++ t))
    else .ok none
  match comparator_to_add with
  | .error e => .error e
  | .ok ca =>
    if (ca.map truthyStr).getD false then
      .ok { condition with value := { value with comparator := ca } }
    else .ok condition

/-- The leaf loop of add_comparator_to_rule_conditions over one branch:
earlier leaves stay mutated when a later leaf raises (in-place iteration). -/
def add_comparator_to_list (comparator : Option (List (String × String)))
    (pfx : Option String) : List Condition → Except PyErr Unit × List Condition
  | [] => (.ok (), [])
  | c :: rest =>
    match add_comparator_to_condition comparator pfx c with
    | .error e => (.error e, c :: rest)
    | .ok c' =>
      let (r, rest') := add_comparator_to_list comparator pfx rest
      (r, c' :: rest')

/-- The branch loop of add_comparator_to_rule_conditions (conditions.values()
walks branch by branch); a raise stops the walk with earlier branches
mutated. -/
def add_comparator_to_branches (comparator : Option (List (String × String)))
    (pfx : Option String) :
    List (String × List Condition) → Except PyErr Unit × List (String × List Condition)
  | [] => (.ok (), [])
  | (k, l) :: rest =>
    match add_comparator_to_list comparator pfx l with
    | (.error e, l') => (.error e, (k, l') :: rest)
    | (.ok _, l') =>
      let (r, rest') := add_comparator_to_branches comparator pfx rest
      (r, (k, l') :: rest')

/-- RuleProcessor.add_comparator_to_rule_conditions: sets value.comparator on
every leaf of the rule's condition tree; the rule is changed by reference,
modelled by returning the updated rule together with the raise status. -/
def add_comparator_to_rule_conditions (rule : Rule)
    (comparator : Option (List (String × String))) (pfx : Option String) :
    Except PyErr Unit × Rule :=
  let (r, branches') := add_comparator_to_branches comparator pfx rule.conditions.branches
  (r, { rule with conditions := ⟨branches'⟩ })

/-- RuleProcessor.create_list_of_target_conditions: for each condition of the
list (outer loop), one deep copy per target (inner loop) with value.target set
to that target; copies are appended to the result in that order. -/
def create_list_of_target_conditions (condition_list : List Condition)
    (targets : List String) : List Condition :=
  condition_list.foldl (fun result condition =>
    let target_conditions := targets.map (fun target =>
      { condition with value := { condition.value with target := some target } })
    result ++ target_conditions) []

/-- RuleProcessor.create_list_of_conditions_for_each_target: rebuilds every
branch of the condition tree through create_list_of_target_conditions and
replaces the rule's tree with the expanded composite
(ConditionCompositeFactory.get_condition_composite modelled as the composite
constructor). -/
def create_list_of_conditions_for_each_target (rule : Rule) (targets : List String) : Rule :=
  let conditions := rule.conditions
  let new_branches := conditions.branches.map (fun b =>
    (b.fst, create_list_of_target_conditions b.snd targets))
  { rule with conditions := ⟨new_branches⟩ }

/-- C5: for a rule whose domains record has Include = ["SUPP--"], empty Exclude
and no split-dataset flag, the domain gate accepts dataset domain "SUPPAE"
through the supplementary family pattern; with Include = ["AE"] it rejects
"SUPPAE". -/
theorem domain_gate_supp_family :
    rule_applies_to_domain "SUPPAE"
      { domains := some ⟨["SUPP--"], [], none⟩, classes := none,
        conditions := ⟨[]⟩, operations := [], output_variables := [] } false = true ∧
    rule_applies_to_domain "SUPPAE"
      { domains := some ⟨["AE"], [], none⟩, classes := none,
        conditions := ⟨[]⟩, operations := [], output_variables := [] } false = false := by
  constructor
  · rfl
  · rfl

/-- A nonempty string stays truthy after appending any suffix. -/
theorem truthyStr_append_left (p t : String) (hp : truthyStr p = true) :
    truthyStr (p ++ t) = true := by
  cases p with
  | mk pd =>
    cases t with
    | mk td =>
      simp only [truthyStr, bne_iff_ne, ne_eq] at hp ⊢
      intro hc
      apply hp
      have hd : pd ++ td = ([] : List Char) := congrArg String.data hc
      have : pd = [] := (List.append_eq_nil.mp hd).left
      simp [this]

/-- Re-running add_comparator_to_condition with the same prefix on an already
processed leaf reproduces that leaf: the comparator is recomputed from the
unchanged target. -/
theorem add_comparator_to_condition_idem (p : String) (c c' : Condition)
    (h : add_comparator_to_condition none (some p) c = .ok c') :
    add_comparator_to_condition none (some p) c' = .ok c' := by
  obtain ⟨nm, op, tgt, cmp⟩ := c
  by_cases hp : truthyStr p = true
  · cases tgt with
    | none =>
      simp [add_comparator_to_condition, hp] at h
    | some t =>
      simp only [add_comparator_to_condition, Option.map_none', Option.getD_none,
        Option.map_some', Option.getD_some, hp, if_false, if_true,
        Bool.false_eq_true, reduceIte] at h
      rw [truthyStr_append_left p t hp] at h
      simp only [if_true] at h
      rw [Except.ok.injEq] at h
      subst h
      simp only [add_comparator_to_condition, Option.map_none', Option.getD_none,
        Option.map_some', Option.getD_some, hp, Bool.false_eq_true, reduceIte]
      rw [truthyStr_append_left p t hp]
      simp
  · have hp' : truthyStr p = false := by
      cases hq : truthyStr p
      · rfl
      · exact absurd hq hp
    simp [add_comparator_to_condition, hp'] at h
    subst h
    simp [add_comparator_to_condition, hp']

/-- Re-running the leaf loop of add_comparator_to_rule_conditions with the same
prefix on its own output reproduces the output (raise status included). -/
theorem add_comparator_to_list_idem (p : String) (l : List Condition) :
    add_comparator_to_list none (some p) (add_comparator_to_list none (some p) l).snd
      = add_comparator_to_list none (some p) l := by
  induction l with
  | nil => rfl
  | cons c rest ih =>
    cases hc : add_comparator_to_condition none (some p) c with
    | error e =>
      simp [add_comparator_to_list, hc]
    | ok c' =>
      have hc' : add_comparator_to_condition none (some p) c' = .ok c' :=
        add_comparator_to_condition_idem p c c' hc
      simp [add_comparator_to_list, hc, hc', ih]

/-- Re-running the branch loop of add_comparator_to_rule_conditions with the
same prefix on its own output reproduces the output. -/
theorem add_comparator_to_branches_idem (p : String) (bs : List (String × List Condition)) :
    add_comparator_to_branches none (some p) (add_comparator_to_branches none (some p) bs).snd
      = add_comparator_to_branches none (some p) bs := by
  induction bs with
  | nil => rfl
  | cons b rest ih =>
    obtain ⟨k, l⟩ := b
    cases hl : add_comparator_to_list none (some p) l with
    | mk r l' =>
      have hl' : add_comparator_to_list none (some p) l' = (r, l') := by
        have := add_comparator_to_list_idem p l
        rw [hl] at this
        exact this
      cases r with
      | error e =>
        simp [add_comparator_to_branches, hl, hl']
      | ok u =>
        simp [add_comparator_to_branches, hl, hl', ih]

/-- C8: calling add_comparator_to_rule_conditions (inject_comparator) with the
same target prefix twice in succession yields exactly the state and status of
calling it once — each leaf's value.comparator is recomputed from the
unchanged value.target, last write wins, never cumulative concatenation. -/
theorem add_comparator_idempotent (rule : Rule) (p : String) :
    add_comparator_to_rule_conditions
        (add_comparator_to_rule_conditions rule none (some p)).snd none (some p)
      = add_comparator_to_rule_conditions rule none (some p) := by
  have h := add_comparator_to_branches_idem p rule.conditions.branches
  cases hb : add_comparator_to_branches none (some p) rule.conditions.branches with
  | mk r branches' =>
    rw [hb] at h
    simp [add_comparator_to_rule_conditions, hb, h]

/-- The accumulating loop of create_list_of_target_conditions equals the flat
cross product: each original condition contributes one copy per target, in
outer-loop (condition) then inner-loop (target) order. -/
theorem create_list_of_target_conditions_eq_bind (targets : List String)
    (condition_list : List Condition) (acc : List Condition) :
    condition_list.foldl (fun result condition =>
        result ++ targets.map (fun target =>
          { condition with value := { condition.value with target := some target } })) acc
      = acc ++ condition_list.bind (fun condition =>
          targets.map (fun target =>
            { condition with value := { condition.value with target := some target } })) := by
  induction condition_list generalizing acc with
  | nil => simp
  | cons c rest ih =>
    simp only [List.foldl_cons, List.cons_bind, ih, List.append_assoc]

/-- C6: create_list_of_conditions_for_each_target (multiply_by_targets)
replaces every branch by the cross product of its leaves with the target list:
branch order is preserved, every branch with n leaves gets exactly n times k
leaves for k targets, each original leaf expanded in place into one copy per
target with value.target set to that target (outer loop over leaves, inner
loop over targets); in particular the one-leaf tree with targets
AESTDY, AESEQ, DOMAIN yields exactly those 3 leaves in that order. -/
theorem multiply_by_targets_cross_product (rule : Rule) (targets : List String) :
    ((create_list_of_conditions_for_each_target rule targets).conditions.branches
        = rule.conditions.branches.map (fun b => (b.fst, b.snd.bind (fun condition =>
            targets.map (fun target =>
              { condition with value := { condition.value with target := some target } })))))
    ∧ (∀ condition_list : List Condition,
        (create_list_of_target_conditions condition_list targets).length
          = condition_list.length * targets.length)
    ∧ (create_list_of_conditions_for_each_target
          { domains := none, classes := none,
            conditions := ⟨[("all", [⟨"get_dataset", some "equal_to", ⟨none, none⟩⟩])]⟩,
            operations := [], output_variables := [] }
          ["AESTDY", "AESEQ", "DOMAIN"]).conditions.branches
        = [("all",
            [⟨"get_dataset", some "equal_to", ⟨some "AESTDY", none⟩⟩,
             ⟨"get_dataset", some "equal_to", ⟨some "AESEQ", none⟩⟩,
             ⟨"get_dataset", some "equal_to", ⟨some "DOMAIN", none⟩⟩])] := by
  refine ⟨?_, ?_, ?_⟩
  · simp only [create_list_of_conditions_for_each_target, create_list_of_target_conditions,
      create_list_of_target_conditions_eq_bind, List.nil_append]
  · intro condition_list
    simp only [create_list_of_target_conditions, create_list_of_target_conditions_eq_bind,
      List.nil_append]
    induction condition_list with
    | nil => simp
    | cons c rest ih =>
      simp only [List.cons_bind, List.length_append, List.length_map, ih, List.length_cons]
      ring
  · rfl

/-- Python str.replace(old, new, 1) on character lists: replace the first
occurrence only (the pattern used by the verified code is "--", never
empty). -/
def replace_chars_first : List Char → List Char → List Char → List Char
  | [], _, _ => []
  | c :: rest, pat, sub =>
    if pat.isPrefixOf (c :: rest) && !pat.isEmpty then sub ++ List.drop pat.length (c :: rest)
    else c :: replace_chars_first rest pat sub

/-- Python str.replace(old, new) on character lists: replace every
non-overlapping occurrence left to right (fuel-bounded by the string length;
the pattern used by the verified code is "--", never empty). -/
def replace_chars_all : Nat → List Char → List Char → List Char → List Char
  | 0, s, _, _ => s
  | _ + 1, [], _, _ => []
  | fuel + 1, c :: rest, pat, sub =>
    if pat.isPrefixOf (c :: rest) && !pat.isEmpty then
      sub ++ replace_chars_all fuel (List.drop pat.length (c :: rest)) pat sub
    else c :: replace_chars_all fuel rest pat sub

/-- Python var.replace(old, new, 1). -/
def pyReplaceFirst (s pat sub : String) : String :=
  ⟨replace_chars_first s.data pat.data sub.data⟩

/-- Python target.replace(old, new): all occurrences. -/
def pyReplaceAll (s pat sub : String) : String :=
  ⟨replace_chars_all s.data.length s.data pat.data sub.data⟩

/-- Code-point comparison of strings (the order Python list.sort applies to
str values), as a boolean lexicographic comparison of character lists. -/
def chars_le : List Char → List Char → Bool
  | [], _ => true
  | _ :: _, [] => false
  | a :: as, b :: bs => if a == b then chars_le as bs else Nat.ble a.toNat b.toNat

/-- Python list.sort on strings: insertion step. -/
def insert_sorted (x : String) : List String → List String
  | [] => [x]
  | y :: rest => if chars_le x.data y.data then x :: y :: rest else y :: insert_sorted x rest

/-- Python target_names.sort(): stable sort by code-point order (insertion
sort). -/
def sort_strings : List String → List String
  | [] => []
  | x :: rest => insert_sorted x (sort_strings rest)

/-- Adjacent deduplication; on the sorted list this yields the canonical
duplicate-free representation of Python set(target_names). -/
def dedup_sorted : List String → List String
  | [] => []
  | [x] => [x]
  | x :: y :: rest => if x == y then dedup_sorted (y :: rest) else x :: dedup_sorted (y :: rest)

/-- RuleProcessor.get_operator_related_pattern: the operator-to-pattern dict
holds the "additional columns" operators, each mapped to the regular
expression anchored on the target followed by at least one digit; the pattern
is represented by its target stem and matched by matches_operator_pattern. -/
def get_operator_related_pattern (operator : Option String) (target : String) : Option String :=
  if operator == some "additional_columns_empty" || operator == some "additional_columns_not_empty" then
    some target
  else none

/-- Python re.match of the pattern built by get_operator_related_pattern (the
target, then one or more digits, anchored at both ends; the targets involved
contain no regular-expression metacharacters). -/
def matches_operator_pattern (target name : String) : Bool :=
  target.data.isPrefixOf name.data &&
    (let rest := name.data.drop target.data.length
     !rest.isEmpty && rest.all (fun c => c.isDigit))

/-- The leaf loop body of extract_target_names_from_rule: skip a leaf without
target; resolve the domain placeholder; extend with the pattern-matching
column names for additional-columns operators, else append the literal
resolved target. -/
def extract_loop_body (domain : String) (column_names : List String)
    (target_names : List String) (condition : Condition) : List String :=
  match condition.value.target with
  | none => target_names
  | some target0 =>
    let target := pyReplaceAll target0 "--" domain
    match get_operator_related_pattern condition.operator target with
    | some pat => target_names ++ column_names.filter (fun name => matches_operator_pattern pat name)
    | none => target_names ++ [target]

/-- RuleProcessor.extract_target_names_from_rule: explicit output_variables
(domain placeholder replaced once per variable) take precedence; otherwise
walk every leaf with extract_loop_body; the returned Python set is represented
by the sorted (the code sorts in place) duplicate-free list of its
elements. -/
def extract_target_names_from_rule (rule : Rule) (domain : String)
    (column_names : List String) : List String :=
  let output_variables := rule.output_variables
  let target_names :=
    if !output_variables.isEmpty then
      output_variables.map (fun v => pyReplaceFirst v "--" domain)
    else
      rule.conditions.valuesList.foldl (extract_loop_body domain column_names) []
  dedup_sorted (sort_strings target_names)

/-- One leaf's contribution to extract_target_names_from_rule, as a flat
list. -/
def leaf_target_names (domain : String) (column_names : List String)
    (condition : Condition) : List String :=
  match condition.value.target with
  | none => []
  | some target0 =>
    let target := pyReplaceAll target0 "--" domain
    match get_operator_related_pattern condition.operator target with
    | some pat => column_names.filter (fun name => matches_operator_pattern pat name)
    | none => [target]

/-- A left fold whose step extends the accumulator by a per-element list
equals the accumulator followed by the flat concatenation. -/
theorem foldl_extend_eq_bind {α β : Type} (f : α → List β) (g : List β → α → List β)
    (hg : ∀ acc a, g acc a = acc ++ f a) (l : List α) (acc : List β) :
    l.foldl g acc = acc ++ l.bind f := by
  induction l generalizing acc with
  | nil => simp
  | cons x rest ih =>
    simp only [List.foldl_cons, hg, ih, List.cons_bind, List.append_assoc]

/-- The loop body of extract_target_names_from_rule extends the accumulator by
the leaf's contribution. -/
theorem extract_loop_body_eq (domain : String) (column_names : List String)
    (acc : List String) (condition : Condition) :
    extract_loop_body domain column_names acc condition
      = acc ++ leaf_target_names domain column_names condition := by
  simp only [extract_loop_body, leaf_target_names]
  cases condition.value.target with
  | none => simp
  | some t =>
    cases h2 : get_operator_related_pattern condition.operator (pyReplaceAll t "--" domain) <;>
      simp [h2]

/-- The concrete rule of the C7 instance: one leaf with the
additional_columns_empty operator on target TSVAL, no output_variables. -/
def ruleC7 : Rule :=
  { domains := none, classes := none,
    conditions := ⟨[("all", [⟨"check", some "additional_columns_empty", ⟨some "TSVAL", none⟩⟩])]⟩,
    operations := [], output_variables := [] }

/-- The concrete column list of the C7 instance. -/
def colsC7 : List String := ["TSVAL", "TSVAL1", "TSVAL2", "OTHER"]

/-- C7: for a rule without output_variables, extract_target_names_from_rule
collects per leaf either the pattern-matching column names (for the
additional-columns operators: exactly the columns that are the resolved target
followed by digits, the literal target excluded) or the literal resolved
target, and returns the deduplicated set; in particular the TSVAL instance
yields exactly the set of TSVAL1 and TSVAL2. -/
theorem extract_target_names_additional_columns (rule : Rule) (domain : String)
    (column_names : List String) (h : rule.output_variables = []) :
    extract_target_names_from_rule rule domain column_names
      = dedup_sorted (sort_strings (rule.conditions.valuesList.bind
          (leaf_target_names domain column_names)))
    ∧ extract_target_names_from_rule ruleC7 "TS" colsC7 = ["TSVAL1", "TSVAL2"] := by
  constructor
  · simp only [extract_target_names_from_rule, h, List.isEmpty_nil, Bool.not_true,
      Bool.false_eq_true, if_false]
    rw [foldl_extend_eq_bind (leaf_target_names domain column_names)
      (extract_loop_body domain column_names) (extract_loop_body_eq domain column_names)]
    simp
  · rfl

/-- Witness for C7 at the concrete TSVAL instance. -/
theorem extract_target_names_additional_columns_witness :
    ruleC7.output_variables = [] ∧
    (extract_target_names_from_rule ruleC7 "TS" colsC7
      = dedup_sorted (sort_strings (ruleC7.conditions.valuesList.bind
          (leaf_target_names "TS" colsC7)))
     ∧ extract_target_names_from_rule ruleC7 "TS" colsC7 = ["TSVAL1", "TSVAL2"]) :=
  ⟨rfl, extract_target_names_additional_columns ruleC7 "TS" colsC7 rfl⟩

/-- The result of an operation capability: a scalar, a single column, or a
grouped frame keyed by the grouping columns (pandas object). -/
inductive OpResult where
  | scalar : CellVal → OpResult
  | series : List CellVal → OpResult
  | frame : DataFrame → OpResult
deriving DecidableEq, Repr

/-- Python truthiness of a cell value (None, 0 and the empty string are
falsy). -/
def CellVal.truthy : CellVal → Bool
  | vnone => false
  | vint n => n != 0
  | vstr s => s != ""

/-- Python truthiness of an operation result: scalars follow scalar
truthiness; `bool()` of a pandas Series or DataFrame always raises
ValueError (the truth value of the object is ambiguous). -/
def OpResult.truthy : OpResult → Except PyErr Bool
  | scalar v => .ok v.truthy
  | series _ => .error (.valueError "The truth value of a Series is ambiguous")
  | frame _ => .error (.valueError "The truth value of a DataFrame is ambiguous")

/-- Modelled from the spec: utilities.utils.get_directory_path — the directory
part of a path (everything before the last slash; empty for a bare
filename). -/
def get_directory_path (path : String) : String :=
  match (path.data.reverse.dropWhile (fun c => !(c == '/'))) with
  | [] => ""
  | _ :: tail => ⟨tail.reverse⟩

/-- Modelled from the spec: utilities.utils.search_in_list_of_dicts — the
first element of the list satisfying the condition, or absent. -/
def search_in_list_of_dicts (l : List DatasetDescriptor)
    (cond : DatasetDescriptor → Bool) : Option DatasetDescriptor :=
  l.find? cond

/-- Modelled from the spec: the Operation Signature of
utilities.utils.get_operations_cache_key — a deterministic cache key derived
from directory path, operation name, domain, the joined grouping columns (the
caller joins them with the ";" separator) and target column. -/
structure CacheKey where
  directory_path : String
  operation_name : String
  domain : String
  grouping : String
  target_variable : String
deriving DecidableEq, Repr

/-- Modelled from the spec: utilities.utils.get_operations_cache_key builds
the Operation Signature from its five components. -/
def get_operations_cache_key (directory_path operation_name domain grouping target_variable : String) :
    CacheKey :=
  ⟨directory_path, operation_name, domain, grouping, target_variable⟩

/-- The operation cache: an association list keyed by Operation Signatures
(the in-memory cache service dict). -/
def OpCache : Type := List (CacheKey × OpResult)

instance : DecidableEq OpCache := by
  unfold OpCache
  infer_instance

/-- Cache service get: the stored result for the key, or absent. -/
def OpCache.getVal (c : OpCache) (k : CacheKey) : Option OpResult :=
  ((c : List (CacheKey × OpResult)).find? (fun p => p.fst == k)).map Prod.snd

/-- Cache service add: dict-style store under the key (overwrite if
present). -/
def OpCache.addVal : OpCache → CacheKey → OpResult → OpCache
  | [], k, v => [(k, v)]
  | p :: rest, k, v =>
    if p.fst == k then (k, v) :: rest
    else p :: OpCache.addVal rest k v

/-- The structured parameter bundle handed to an operation capability
(models/OperationParams as constructed in perform_rule_operations); the
`dataframe` and `grouping` fields are the mutable aliases the executor and
result handler update in place. -/
structure OperationParams where
  operation_id : String
  operation_name : String
  dataframe : DataFrame
  target : String
  domain : String
  dataset_path : String
  directory_path : String
  datasets : List DatasetDescriptor
  grouping : List String
  standard : String
  standard_version : String
deriving DecidableEq, Repr

/-- RuleProcessor.is_relationship_dataset: RELREC, RELSUB, CO and
SUPP-prefixed domains are relationship datasets. -/
def is_relationship_dataset (domain : String) : Bool :=
  if domain == "RELREC" || domain == "RELSUB" || domain == "CO" then true
  else if strStartsWith domain "SUPP" then true
  else false

/-- RuleProcessor.is_current_domain: for a non-relationship target domain,
inspect the DOMAIN column — `dataset["DOMAIN"][0]` subscribes row label 0,
which raises KeyError on a dataset with no row 0; relationship datasets are
always treated as not current. -/
def is_current_domain (dataset : DataFrame) (target_domain : String) : Except PyErr Bool :=
  if !is_relationship_dataset target_domain then
    if dataset.hasCol "DOMAIN" then
      match (dataset.colOpt "DOMAIN").getD [] with
      | [] => .error (.keyError "0")
      | v :: _ => .ok (v == CellVal.vstr target_domain)
    else .ok false
  else .ok false

/-- The mutable execution context threaded through the executor: the operation
cache plus counters for capability invocations and cross-domain dataset
fetches. -/
structure ExecState where
  cache : OpCache
  cap_calls : Nat
  fetch_calls : Nat
deriving DecidableEq

/-- The Operation Signature of an OperationParams bundle, exactly as
_execute_operation builds it (grouping joined by ";"). -/
def operation_cache_key (operation_params : OperationParams) : CacheKey :=
  get_operations_cache_key operation_params.directory_path operation_params.operation_name
    operation_params.domain (String.intercalate ";" operation_params.grouping)
    operation_params.target

/-- The compute path of RuleProcessor._execute_operation after a cache miss
(or a falsy cached value): resolve the domain — on a differing domain fetch
the matching descriptor's file from the data service and replace
operation_params.dataframe with it — call the capability, and store the result
in the cache unless the data service is the dummy one. -/
def execute_operation_compute (self : DataService)
    (operation_to_call : OperationParams → OpResult)
    (operation_params : OperationParams) (st : ExecState) (cache_key : CacheKey) :
    Except PyErr OpResult × OperationParams × ExecState :=
  match is_current_domain operation_params.dataframe operation_params.domain with
  | .error e => (.error e, operation_params, st)
  | .ok true =>
    let result := operation_to_call operation_params
    let cache' := if !self.is_dummy then st.cache.addVal cache_key result else st.cache
    (.ok result, operation_params,
      { st with cache := cache', cap_calls := st.cap_calls + 1 })
  | .ok false =>
    match search_in_list_of_dicts operation_params.datasets
        (fun item => item.domain == operation_params.domain) with
    | none => (.error (.typeError "NoneType object is not subscriptable"), operation_params, st)
    | some domain_details =>
      let file_path := get_directory_path operation_params.dataset_path ++ "/" ++ domain_details.filename
      let operation_params := { operation_params with dataframe := self.datasets_by_path file_path }
      let result := operation_to_call operation_params
      let cache' := if !self.is_dummy then st.cache.addVal cache_key result else st.cache
      (.ok result, operation_params,
        { st with
          cache := cache',
          cap_calls := st.cap_calls + 1,
          fetch_calls := st.fetch_calls + 1 })

/-- RuleProcessor._execute_operation: build the Operation Signature, consult
the cache (`if result:` — Python truthiness of the cached value; a truthy hit
is returned directly, a falsy hit falls through to recomputation, an ambiguous
pandas hit raises), otherwise compute via execute_operation_compute. -/
def execute_operation (self : DataService) (operation_to_call : OperationParams → OpResult)
    (operation_params : OperationParams) (st : ExecState) :
    Except PyErr OpResult × OperationParams × ExecState :=
  let cache_key := operation_cache_key operation_params
  match st.cache.getVal cache_key with
  | some result =>
    match result.truthy with
    | .error e => (.error e, operation_params, st)
    | .ok true => (.ok result, operation_params, st)
    | .ok false => execute_operation_compute self operation_to_call operation_params st cache_key
  | none => execute_operation_compute self operation_to_call operation_params st cache_key

/-- Pandas `df[op_id] = result`: a scalar broadcasts over the rows, a
column-like value must match the row count (assignment is positional in this
model), a DataFrame value is rejected. -/
def DataFrame.assignResult (df : DataFrame) (name : String) (r : OpResult) :
    Except PyErr DataFrame :=
  match r with
  | .scalar v => .ok (df.setCol name (List.replicate df.rowCount v))
  | .series vs =>
    if vs.length == df.rowCount then .ok (df.setCol name vs)
    else .error (.valueError "Length of values does not match length of index")
  | .frame _ => .error (.valueError "Incompatible indexer with DataFrame")

/-- Pandas rename(columns={old: new}): relabel every matching column, no-op on
the rest. -/
def DataFrame.renameCol (df : DataFrame) (source target : String) : DataFrame :=
  ⟨df.cols.map (fun p => if p.fst == source then (target, p.snd) else p)⟩

/-- Python list.append: returns None while extending the aliased list in
place; the pair carries the returned value and the mutated list. -/
def pyAppend (l : List String) (x : String) : Option (List String) × List String :=
  (none, l ++ [x])

/-- Pandas column subscription `df[key]` where the key may be None (KeyError)
or a list of column labels (KeyError when one is missing). -/
def DataFrame.getItemCols (df : DataFrame) (key : Option (List String)) :
    Except PyErr DataFrame :=
  match key with
  | none => .error (.keyError "None")
  | some names =>
    if names.all (fun n => df.hasCol n) then
      .ok ⟨names.map (fun n => (n, (df.colOpt n).getD []))⟩
    else .error (.keyError "column not in index")

/-- Values of the named columns at row i. -/
def DataFrame.rowVals (df : DataFrame) (names : List String) (i : Nat) : List CellVal :=
  names.map (fun n => ((df.colOpt n).getD []).getD i CellVal.vnone)

/-- Pandas left merge on the key columns: every left row is kept, matching
right rows (possibly several) multiply it, an unmatched left row gets absent
values in the right-only columns (suffix handling for colliding non-key
column names is not modelled: the verified call sites have no collision). -/
def DataFrame.mergeLeft (left other : DataFrame) (keys : List String) : DataFrame :=
  let otherExtra := other.colNames.filter (fun n => !keys.contains n)
  let outNames := left.colNames ++ otherExtra
  let rows := (List.range left.rowCount).foldr (fun i acc =>
    let lrow := left.rowVals left.colNames i
    let ms := (List.range other.rowCount).filter (fun j =>
      other.rowVals keys j == left.rowVals keys i)
    (if ms.isEmpty then [lrow ++ otherExtra.map (fun _ => CellVal.vnone)]
     else ms.map (fun j => lrow ++ other.rowVals otherExtra j)) ++ acc) []
  ⟨outNames.mapIdx (fun k n => (n, rows.map (fun r => r.getD k CellVal.vnone)))⟩

/-- RuleProcessor._handle_operation_result.  Grouped: rename the result's
target column to the operation id (a non-frame result has no such rename and
raises), then `grouping.append(operation_id)` — Python list.append returns
None into target_columns while mutating the aliased grouping list — and
subscribe `result[target_columns]`, which raises KeyError(None) before the
left merge can run.  Ungrouped: assign the result as the operation-id column
of the params dataframe and return that dataframe. -/
def handle_operation_result (result : OpResult) (operation_params : OperationParams) :
    Except PyErr DataFrame × OperationParams :=
  if !operation_params.grouping.isEmpty then
    match result with
    | .frame rf =>
      let renamed := rf.renameCol operation_params.target operation_params.operation_id
      let (target_columns, grouping') := pyAppend operation_params.grouping operation_params.operation_id
      let operation_params' := { operation_params with grouping := grouping' }
      match renamed.getItemCols target_columns with
      | .error e => (.error e, operation_params')
      | .ok sub =>
        (.ok (operation_params'.dataframe.mergeLeft sub operation_params'.grouping), operation_params')
    | _ => (.error (.attributeError "rename"), operation_params)
  else
    match operation_params.dataframe.assignResult operation_params.operation_id result with
    | .error e => (.error e, operation_params)
    | .ok df' => (.ok df', { operation_params with dataframe := df' })

/-- The OperationParams bundle perform_rule_operations builds for one
operation declaration: params.grouping is the very list stored in the
operation's "group" entry when that key is present (operation.get("group",
[]) returns the stored list object, a fresh empty list otherwise). -/
def mk_operation_params (operation : Operation) (dataset_copy : DataFrame) (domain : String)
    (datasets : List DatasetDescriptor) (dataset_path standard standard_version : String) :
    OperationParams :=
  { operation_id := operation.id
    operation_name := operation.operator
    dataframe := dataset_copy
    target := operation.name
    domain := operation.domain.getD domain
    dataset_path := dataset_path
    directory_path := get_directory_path dataset_path
    datasets := datasets
    grouping := operation.group.getD []
    standard := standard
    standard_version := standard_version }

/-- The operation loop of RuleProcessor.perform_rule_operations.  For each
declaration: resolve the capability by name (unknown name raises ValueError),
execute with caching, merge the result into the working dataset.  Because
params.grouping aliases the operation's stored "group" list, the append
performed by handle_operation_result is written back into the operation
(only when the "group" key is present); a raise leaves the already performed
mutations in place.  Returns the final dataset (or the raise), the operation
list as mutated, and the execution context. -/
def perform_operations_loop (self : DataService)
    (dp : String → Option (OperationParams → OpResult)) (domain : String)
    (datasets : List DatasetDescriptor) (dataset_path standard standard_version : String) :
    List Operation → DataFrame → ExecState →
      Except PyErr DataFrame × List Operation × ExecState
  | [], dataset_copy, st => (.ok dataset_copy, [], st)
  | operation :: rest, dataset_copy, st =>
    match dp operation.operator with
    | none => (.error (.valueError "Operation doesn't exist"), operation :: rest, st)
    | some operation_to_call =>
      let operation_params :=
        mk_operation_params operation dataset_copy domain datasets dataset_path standard standard_version
      let (res, params', st') := execute_operation self operation_to_call operation_params st
      match res with
      | .error e => (.error e, operation :: rest, st')
      | .ok result =>
        let (hres, params'') := handle_operation_result result params'
        let operation' :=
          if operation.group.isSome then { operation with group := some params''.grouping }
          else operation
        match hres with
        | .error e => (.error e, operation' :: rest, st')
        | .ok df' =>
          let (r, ops', st'') :=
            perform_operations_loop self dp domain datasets dataset_path standard
              standard_version rest df' st'
          (r, operation' :: ops', st'')

/-- RuleProcessor.perform_rule_operations: copy the incoming dataset
(dataset.copy(), value semantics here) and run every declared operation in
order; the rule is returned alongside because the grouped-result handler
mutates the operations' "group" lists through the aliased params. -/
def perform_rule_operations (self : DataService)
    (dp : String → Option (OperationParams → OpResult)) (rule : Rule) (dataset : DataFrame)
    (domain : String) (datasets : List DatasetDescriptor)
    (dataset_path standard standard_version : String) (st : ExecState) :
    Except PyErr DataFrame × Rule × ExecState :=
  let dataset_copy := dataset
  let (res, ops', st') :=
    perform_operations_loop self dp domain datasets dataset_path standard standard_version
      rule.operations dataset_copy st
  (res, { rule with operations := ops' }, st')

deriving instance DecidableEq for Except

/-- A present column makes hasCol true. -/
theorem hasCol_of_colOpt (df : DataFrame) (name : String) (l : List CellVal)
    (h : df.colOpt name = some l) : df.hasCol name = true := by
  unfold DataFrame.colOpt at h
  unfold DataFrame.hasCol
  cases hf : df.cols.find? (fun p => p.fst == name) with
  | none => rw [hf] at h; simp at h
  | some pr =>
    have hp := List.find?_some hf
    have hm := List.mem_of_find?_eq_some hf
    exact List.any_eq_true.mpr ⟨pr, hm, hp⟩

/-- Column assignment leaves every other column untouched (association-list
level). -/
theorem find?_setColList (cols : List (String × List CellVal)) (name : String)
    (vals : List CellVal) (c : String) (h : c ≠ name) :
    (setColList cols name vals).find? (fun p => p.fst == c)
      = cols.find? (fun p => p.fst == c) := by
  induction cols with
  | nil =>
    have : (name == c) = false := by
      cases hq : name == c
      · rfl
      · exact absurd (beq_iff_eq.mp hq).symm h
    simp [setColList, this]
  | cons p rest ih =>
    by_cases hp : (p.fst == name) = true
    · have hpn : p.fst = name := beq_iff_eq.mp hp
      have h1 : (name == c) = false := by
        cases hq : name == c
        · rfl
        · exact absurd (beq_iff_eq.mp hq).symm h
      have h2 : (p.fst == c) = false := by rw [hpn]; exact h1
      simp [setColList, hp, List.find?, h1, h2]
    · have hp' : (p.fst == name) = false := by
        cases hq : p.fst == name
        · rfl
        · exact absurd hq hp
      by_cases hc : (p.fst == c) = true
      · simp [setColList, hp', List.find?, hc]
      · have hc' : (p.fst == c) = false := by
          cases hq : p.fst == c
          · rfl
          · exact absurd hq hc
        simp [setColList, hp', List.find?, hc', ih]

/-- Column assignment leaves every other column untouched. -/
theorem colOpt_setCol_ne (df : DataFrame) (name c : String) (vals : List CellVal)
    (h : c ≠ name) : (df.setCol name vals).colOpt c = df.colOpt c := by
  unfold DataFrame.colOpt DataFrame.setCol
  rw [find?_setColList df.cols name vals c h]

/-- A cache add is visible to a subsequent lookup of the same key. -/
theorem getVal_addVal (c : OpCache) (k : CacheKey) (v : OpResult) :
    (c.addVal k v).getVal k = some v := by
  induction c with
  | nil => simp [OpCache.addVal, OpCache.getVal, List.find?]
  | cons p rest ih =>
    by_cases hp : (p.fst == k) = true
    · simp [OpCache.addVal, OpCache.getVal, hp, List.find?]
    · have hp' : (p.fst == k) = false := by
        cases hq : p.fst == k
        · rfl
        · exact absurd hq hp
      simp only [OpCache.addVal, hp', Bool.false_eq_true, if_false]
      simp only [OpCache.getVal, List.find?, hp'] at ih ⊢
      exact ih

/-- A non-empty list is not isEmpty. -/
theorem isEmpty_false_of_ne_nil {α : Type} (l : List α) (h : l ≠ []) :
    l.isEmpty = false := by
  cases l with
  | nil => exact absurd rfl h
  | cons a rest => rfl

/-- On a grouped (frame) result with non-empty grouping columns,
handle_operation_result raises KeyError(None) — Python list.append returned
None as the column selector — after appending the operation id to the aliased
grouping list. -/
theorem handle_grouped_frame (rf : DataFrame) (operation_params : OperationParams)
    (h : operation_params.grouping ≠ []) :
    handle_operation_result (.frame rf) operation_params
      = (.error (.keyError "None"),
         { operation_params with
           grouping := operation_params.grouping ++ [operation_params.operation_id] }) := by
  unfold handle_operation_result
  rw [isEmpty_false_of_ne_nil operation_params.grouping h]
  rfl

/-- _execute_operation only ever rebinds params.dataframe: the grouping list
and the operation id of the params bundle come through unchanged. -/
theorem execute_operation_params_fields (self : DataService)
    (cap : OperationParams → OpResult) (operation_params : OperationParams) (st : ExecState) :
    ((execute_operation self cap operation_params st).snd.fst).grouping
        = operation_params.grouping
    ∧ ((execute_operation self cap operation_params st).snd.fst).operation_id
        = operation_params.operation_id := by
  unfold execute_operation
  cases hc : st.cache.getVal (operation_cache_key operation_params) with
  | some r =>
    simp only [hc]
    cases ht : r.truthy with
    | error e => simp [ht]
    | ok b =>
      cases b with
      | true => simp [ht]
      | false =>
        simp only [ht]
        unfold execute_operation_compute
        cases hd : is_current_domain operation_params.dataframe operation_params.domain with
        | error e => simp [hd]
        | ok b2 =>
          cases b2 with
          | true => simp [hd]
          | false =>
            simp only [hd]
            cases hs : search_in_list_of_dicts operation_params.datasets
                (fun item => item.domain == operation_params.domain) with
            | none => simp [hs]
            | some dd => simp [hs]
  | none =>
    simp only [hc]
    unfold execute_operation_compute
    cases hd : is_current_domain operation_params.dataframe operation_params.domain with
    | error e => simp [hd]
    | ok b2 =>
      cases b2 with
      | true => simp [hd]
      | false =>
        simp only [hd]
        cases hs : search_in_list_of_dicts operation_params.datasets
            (fun item => item.domain == operation_params.domain) with
        | none => simp [hs]
        | some dd => simp [hs]

/-- C1: for every operation with a non-empty grouping-column list,
_handle_operation_result raises instead of left-joining — the grouped merge
never completes: `grouping.append(operation_id)` returns None, so subscribing
`result[target_columns]` raises KeyError(None) (and a non-frame result already
fails at rename), so no dataset with the original row count is ever
returned. -/
theorem grouped_merge_always_raises (result : OpResult)
    (operation_params : OperationParams) (h : operation_params.grouping ≠ []) :
    ∃ e, (handle_operation_result result operation_params).fst = Except.error e := by
  cases result with
  | frame rf =>
    rw [handle_grouped_frame rf operation_params h]
    exact ⟨.keyError "None", rfl⟩
  | scalar v =>
    unfold handle_operation_result
    rw [isEmpty_false_of_ne_nil operation_params.grouping h]
    exact ⟨.attributeError "rename", rfl⟩
  | series vs =>
    unfold handle_operation_result
    rw [isEmpty_false_of_ne_nil operation_params.grouping h]
    exact ⟨.attributeError "rename", rfl⟩

/-- Witness for C1 at a concrete grouped result and params bundle. -/
theorem grouped_merge_always_raises_witness :
    (["USUBJID"] : List String) ≠ [] ∧
    ∃ e, (handle_operation_result
        (.frame ⟨[("USUBJID", [.vstr "S1"]), ("AESEQ", [.vint 3])]⟩)
        { operation_id := "op9", operation_name := "get_grouped",
          dataframe := ⟨[("DOMAIN", [.vstr "AE"])]⟩, target := "AESEQ", domain := "AE",
          dataset_path := "study/ae.xpt", directory_path := "study", datasets := [],
          grouping := ["USUBJID"], standard := "sdtm",
          standard_version := "3-4" }).fst = Except.error e :=
  ⟨by decide,
   grouped_merge_always_raises
     (.frame ⟨[("USUBJID", [.vstr "S1"]), ("AESEQ", [.vint 3])]⟩)
     { operation_id := "op9", operation_name := "get_grouped",
       dataframe := ⟨[("DOMAIN", [.vstr "AE"])]⟩, target := "AESEQ", domain := "AE",
       dataset_path := "study/ae.xpt", directory_path := "study", datasets := [],
       grouping := ["USUBJID"], standard := "sdtm", standard_version := "3-4" }
     (by decide)⟩

/-- C10: for a non-relationship target domain and a dataset whose DOMAIN
column is present but has no row 0, is_current_domain raises KeyError instead
of returning a boolean, and _execute_operation on a cache miss propagates that
raise. -/
theorem empty_domain_column_raises (self : DataService)
    (cap : OperationParams → OpResult) (operation_params : OperationParams) (st : ExecState)
    (h1 : is_relationship_dataset operation_params.domain = false)
    (h2 : operation_params.dataframe.colOpt "DOMAIN" = some [])
    (h3 : st.cache.getVal (operation_cache_key operation_params) = none) :
    is_current_domain operation_params.dataframe operation_params.domain
        = .error (.keyError "0")
    ∧ (execute_operation self cap operation_params st).fst = .error (.keyError "0") := by
  have hcd : is_current_domain operation_params.dataframe operation_params.domain
      = .error (.keyError "0") := by
    unfold is_current_domain
    rw [h1]
    rw [hasCol_of_colOpt operation_params.dataframe "DOMAIN" [] h2]
    rw [h2]
    rfl
  refine ⟨hcd, ?_⟩
  unfold execute_operation
  simp only [h3]
  unfold execute_operation_compute
  simp only [hcd]

/-- Witness for C10 at a concrete zero-row dataset carrying a DOMAIN
column. -/
theorem empty_domain_column_raises_witness :
    is_relationship_dataset "AE" = false ∧
    (DataFrame.mk [("DOMAIN", [])]).colOpt "DOMAIN" = some [] ∧
    (ExecState.mk [] 0 0).cache.getVal (operation_cache_key
      { operation_id := "op1", operation_name := "get_max",
        dataframe := ⟨[("DOMAIN", [])]⟩, target := "AESEQ", domain := "AE",
        dataset_path := "study/ae.xpt", directory_path := "study", datasets := [],
        grouping := [], standard := "sdtm", standard_version := "3-4" }) = none ∧
    (is_current_domain (DataFrame.mk [("DOMAIN", [])]) "AE" = .error (.keyError "0")
     ∧ (execute_operation ⟨fun _ => ⟨[]⟩, none, false⟩ (fun _ => .scalar .vnone)
          { operation_id := "op1", operation_name := "get_max",
            dataframe := ⟨[("DOMAIN", [])]⟩, target := "AESEQ", domain := "AE",
            dataset_path := "study/ae.xpt", directory_path := "study", datasets := [],
            grouping := [], standard := "sdtm", standard_version := "3-4" }
          ⟨[], 0, 0⟩).fst = .error (.keyError "0")) :=
  ⟨by decide, by decide, by decide,
   empty_domain_column_raises ⟨fun _ => ⟨[]⟩, none, false⟩ (fun _ => .scalar .vnone)
     { operation_id := "op1", operation_name := "get_max",
       dataframe := ⟨[("DOMAIN", [])]⟩, target := "AESEQ", domain := "AE",
       dataset_path := "study/ae.xpt", directory_path := "study", datasets := [],
       grouping := [], standard := "sdtm", standard_version := "3-4" }
     ⟨[], 0, 0⟩ (by decide) (by decide) (by decide)⟩

/-- The concrete data service of the C2 counterexample: not the dummy one. -/
def dsC2 : DataService := ⟨fun _ => ⟨[]⟩, none, false⟩

/-- The concrete capability of the C2 counterexample: it computes the falsy
scalar 0 (for instance a maximum over an all-zero column). -/
def capC2 : OperationParams → OpResult := fun _ => .scalar (.vint 0)

/-- The concrete params of the C2 counterexample: an ungrouped operation on
the currently loaded AE dataset. -/
def paramsC2 : OperationParams :=
  { operation_id := "op1", operation_name := "get_max",
    dataframe := ⟨[("DOMAIN", [.vstr "AE"])]⟩, target := "AESEQ", domain := "AE",
    dataset_path := "study/ae.xpt", directory_path := "study", datasets := [],
    grouping := [], standard := "sdtm", standard_version := "3-4" }

/-- C2 counterexample: two executions of the very same operation signature
with a non-dummy data service invoke the capability twice — after the first
call the cache does hold the result under the signature, but `if result:`
evaluates the cached 0 as falsy, so the second _execute_operation recomputes
instead of returning the cached result. -/
theorem cached_falsy_result_recomputed :
    ((execute_operation dsC2 capC2 paramsC2 ⟨[], 0, 0⟩).snd.snd.cache.getVal
        (operation_cache_key paramsC2)).isSome = true
    ∧ ((execute_operation dsC2 capC2 paramsC2
          (execute_operation dsC2 capC2 paramsC2 ⟨[], 0, 0⟩).snd.snd).snd.snd).cap_calls = 2
    ∧ ((execute_operation dsC2 capC2 paramsC2
          (execute_operation dsC2 capC2 paramsC2 ⟨[], 0, 0⟩).snd.snd).snd.snd).cap_calls ≠ 1 := by
  refine ⟨by decide, by decide, by decide⟩

/-- C2 (amended): a truthy cached result under the operation's signature is
returned directly — no cross-domain fetch, no capability call, no state
change; and when the signature is not cached, the service is not dummy, the
loaded dataset already is the operation's domain and the computed result is
truthy, two executions in sequence invoke the capability exactly once, the
second being served from cache. -/
theorem cache_hit_truthy_served (self : DataService) (cap : OperationParams → OpResult)
    (operation_params : OperationParams) (st : ExecState) :
    (∀ r, st.cache.getVal (operation_cache_key operation_params) = some r →
      r.truthy = .ok true →
      execute_operation self cap operation_params st = (.ok r, operation_params, st))
    ∧ (st.cache.getVal (operation_cache_key operation_params) = none →
       self.is_dummy = false →
       is_current_domain operation_params.dataframe operation_params.domain = .ok true →
       (cap operation_params).truthy = .ok true →
       execute_operation self cap operation_params st
         = (.ok (cap operation_params), operation_params,
            ⟨st.cache.addVal (operation_cache_key operation_params) (cap operation_params),
             st.cap_calls + 1, st.fetch_calls⟩)
       ∧ execute_operation self cap operation_params
           ⟨st.cache.addVal (operation_cache_key operation_params) (cap operation_params),
            st.cap_calls + 1, st.fetch_calls⟩
         = (.ok (cap operation_params), operation_params,
            ⟨st.cache.addVal (operation_cache_key operation_params) (cap operation_params),
             st.cap_calls + 1, st.fetch_calls⟩)) := by
  constructor
  · intro r hr ht
    unfold execute_operation
    simp only [hr, ht]
  · intro hmiss hdummy hcur htruthy
    have hfirst : execute_operation self cap operation_params st
        = (.ok (cap operation_params), operation_params,
           ⟨st.cache.addVal (operation_cache_key operation_params) (cap operation_params),
            st.cap_calls + 1, st.fetch_calls⟩) := by
      unfold execute_operation
      simp only [hmiss]
      unfold execute_operation_compute
      simp only [hcur, hdummy, Bool.not_false, if_true]
    refine ⟨hfirst, ?_⟩
    unfold execute_operation
    simp only [getVal_addVal, htruthy]

/-- Witness for C2 (amended) at a concrete truthy capability: the first call
computes and caches, the second is served from cache with no further state
change. -/
theorem cache_hit_truthy_served_witness :
    execute_operation dsC2 (fun _ => OpResult.scalar (.vint 7)) paramsC2 ⟨[], 0, 0⟩
      = (.ok (OpResult.scalar (.vint 7)), paramsC2,
         ⟨OpCache.addVal [] (operation_cache_key paramsC2) (OpResult.scalar (.vint 7)), 1, 0⟩)
    ∧ execute_operation dsC2 (fun _ => OpResult.scalar (.vint 7)) paramsC2
        ⟨OpCache.addVal [] (operation_cache_key paramsC2) (OpResult.scalar (.vint 7)), 1, 0⟩
      = (.ok (OpResult.scalar (.vint 7)), paramsC2,
         ⟨OpCache.addVal [] (operation_cache_key paramsC2) (OpResult.scalar (.vint 7)), 1, 0⟩) :=
  (cache_hit_truthy_served dsC2 (fun _ => OpResult.scalar (.vint 7)) paramsC2
    ⟨[], 0, 0⟩).2 (by decide) (by decide) (by decide) (by decide)

/-- The working AE dataset of the C3 scenario (two rows). -/
def wdC3 : DataFrame := ⟨[("DOMAIN", [.vstr "AE", .vstr "AE"]), ("AESEQ", [.vint 1, .vint 2])]⟩

/-- The DM dataset the data service serves for the C3 scenario (one row). -/
def dmC3 : DataFrame := ⟨[("DOMAIN", [.vstr "DM"]), ("USUBJID", [.vstr "CDISC001"])]⟩

/-- The concrete data service of the C3 scenario. -/
def dsC3 : DataService := ⟨fun p => if p == "study/dm.xpt" then dmC3 else ⟨[]⟩, none, false⟩

/-- The C3 operation: ungrouped, targeting the DM domain while AE is
loaded. -/
def opC3 : Operation :=
  { id := "op1", operator := "get_count", name := "USUBJID", domain := some "DM", group := none }

/-- The C3 rule: the single cross-domain ungrouped operation. -/
def ruleC3 : Rule :=
  { domains := none, classes := none, conditions := ⟨[]⟩, operations := [opC3],
    output_variables := [] }

/-- The capability table of the C3 scenario. -/
def dpC3 : String → Option (OperationParams → OpResult) :=
  fun nm => if nm == "get_count" then some (fun _ => .scalar (.vint 1)) else none

/-- The params bundle perform_rule_operations builds for the C3 operation. -/
def paramsC3 : OperationParams :=
  mk_operation_params opC3 wdC3 "AE" [⟨"DM", "dm.xpt"⟩] "study/ae.xpt" "sdtm" "3-4"

/-- The dataset the C3 run returns: the fetched DM dataset plus the new
column — not the AE working dataset. -/
def dfC3 : DataFrame :=
  ⟨[("DOMAIN", [.vstr "DM"]), ("USUBJID", [.vstr "CDISC001"]), ("op1", [.vint 1])]⟩

/-- C3 counterexample: an ungrouped operation whose target domain differs from
the loaded dataset returns the freshly fetched domain dataset with the new
column — the cross-domain fetch replaces operation_params.dataframe, so the
working dataset (its AESEQ column, its two rows) is gone from the result. -/
theorem cross_domain_fetch_replaces_working_dataset :
    (perform_rule_operations dsC3 dpC3 ruleC3 wdC3 "AE" [⟨"DM", "dm.xpt"⟩] "study/ae.xpt"
        "sdtm" "3-4" ⟨[], 0, 0⟩).fst = .ok dfC3
    ∧ dfC3.hasCol "AESEQ" = false
    ∧ wdC3.hasCol "AESEQ" = true
    ∧ dfC3.rowCount ≠ wdC3.rowCount := by
  refine ⟨by decide, by decide, by decide, by decide⟩

/-- C3 (amended): for an ungrouped operation the result is assigned as the
operation-id column onto the dataframe held by the params bundle after
execution, all its other columns unchanged — but that dataframe is the
freshly fetched target-domain dataset, not the working dataset, whenever the
execution took the cross-domain cache-miss path. -/
theorem ungrouped_assign_on_params_dataframe (self : DataService)
    (cap : OperationParams → OpResult) (operation_params : OperationParams)
    (st : ExecState) (v : OpResult) (df' : DataFrame)
    (hg : operation_params.grouping = [])
    (hassign : ((execute_operation self cap operation_params st).snd.fst).dataframe.assignResult
        operation_params.operation_id v = .ok df') :
    (handle_operation_result v ((execute_operation self cap operation_params st).snd.fst)).fst
        = .ok df'
    ∧ (∀ c, c ≠ operation_params.operation_id →
        df'.colOpt c = ((execute_operation self cap operation_params st).snd.fst).dataframe.colOpt c)
    ∧ (∀ dd, st.cache.getVal (operation_cache_key operation_params) = none →
        is_current_domain operation_params.dataframe operation_params.domain = .ok false →
        search_in_list_of_dicts operation_params.datasets
            (fun item => item.domain == operation_params.domain) = some dd →
        ((execute_operation self cap operation_params st).snd.fst).dataframe
          = self.datasets_by_path
              (get_directory_path operation_params.dataset_path ++ "/" ++ dd.filename)) := by
  have hply := execute_operation_params_fields self cap operation_params st
  have hgr : ((execute_operation self cap operation_params st).snd.fst).grouping = [] := by
    rw [hply.1, hg]
  have hid : ((execute_operation self cap operation_params st).snd.fst).operation_id
      = operation_params.operation_id := hply.2
  refine ⟨?_, ?_, ?_⟩
  · unfold handle_operation_result
    rw [hgr]
    simp only [List.isEmpty_nil, Bool.not_true, Bool.false_eq_true, if_false]
    rw [hid, hassign]
  · intro c hc
    cases v with
    | scalar v0 =>
      simp only [DataFrame.assignResult, Except.ok.injEq] at hassign
      rw [hassign.symm]
      exact colOpt_setCol_ne _ _ _ _ hc
    | series vs =>
      simp only [DataFrame.assignResult] at hassign
      split at hassign
      · simp only [Except.ok.injEq] at hassign
        rw [hassign.symm]
        exact colOpt_setCol_ne _ _ _ _ hc
      · exact Except.noConfusion hassign
    | frame f => exact Except.noConfusion hassign
  · intro dd hmiss hcur hfind
    unfold execute_operation
    simp only [hmiss]
    unfold execute_operation_compute
    simp only [hcur, hfind]

/-- Witness for C3 (amended) at the concrete cross-domain scenario: the
returned column-extended dataframe is the fetched DM dataset, whose other
columns (DOMAIN) are preserved, and the params dataframe after execution is
the dataset served for study/dm.xpt. -/
theorem ungrouped_assign_on_params_dataframe_witness :
    (handle_operation_result (.scalar (.vint 1))
        ((execute_operation dsC3 (fun _ => .scalar (.vint 1)) paramsC3 ⟨[], 0, 0⟩).snd.fst)).fst
      = .ok dfC3
    ∧ dfC3.colOpt "DOMAIN"
        = ((execute_operation dsC3 (fun _ => .scalar (.vint 1)) paramsC3
            ⟨[], 0, 0⟩).snd.fst).dataframe.colOpt "DOMAIN"
    ∧ ((execute_operation dsC3 (fun _ => .scalar (.vint 1)) paramsC3 ⟨[], 0, 0⟩).snd.fst).dataframe
        = dsC3.datasets_by_path
            (get_directory_path paramsC3.dataset_path ++ "/" ++ DatasetDescriptor.filename ⟨"DM", "dm.xpt"⟩) :=
  ⟨(ungrouped_assign_on_params_dataframe dsC3 (fun _ => .scalar (.vint 1)) paramsC3
      ⟨[], 0, 0⟩ (.scalar (.vint 1)) dfC3 (by decide) (by decide)).1,
   (ungrouped_assign_on_params_dataframe dsC3 (fun _ => .scalar (.vint 1)) paramsC3
      ⟨[], 0, 0⟩ (.scalar (.vint 1)) dfC3 (by decide) (by decide)).2.1 "DOMAIN" (by decide),
   (ungrouped_assign_on_params_dataframe dsC3 (fun _ => .scalar (.vint 1)) paramsC3
      ⟨[], 0, 0⟩ (.scalar (.vint 1)) dfC3 (by decide) (by decide)).2.2 ⟨"DM", "dm.xpt"⟩
      (by decide) (by decide) (by decide)⟩

/-- C9: running perform_rule_operations on a rule whose operation declares a
non-empty grouping list mutates the rule object itself — params.grouping
aliases the operation's stored "group" list and the grouped result handler
appends the operation id to it in place — so the rule's operation declaration
differs after execution (stated for a single-operation rule whose grouped
execution yields a frame result). -/
theorem grouped_operation_mutates_rule (self : DataService)
    (dp : String → Option (OperationParams → OpResult)) (rule : Rule) (dataset : DataFrame)
    (domain : String) (datasets : List DatasetDescriptor)
    (dataset_path standard standard_version : String) (st : ExecState)
    (operation : Operation) (g : List String) (cap : OperationParams → OpResult) (rf : DataFrame)
    (hops : rule.operations = [operation]) (hg : operation.group = some g) (hne : g ≠ [])
    (hdp : dp operation.operator = some cap)
    (hex : (execute_operation self cap
        (mk_operation_params operation dataset domain datasets dataset_path standard
          standard_version) st).fst = .ok (.frame rf)) :
    (perform_rule_operations self dp rule dataset domain datasets dataset_path standard
        standard_version st).snd.fst.operations
      = [{ operation with group := some (g ++ [operation.id]) }]
    ∧ { operation with group := some (g ++ [operation.id]) } ≠ operation := by
  have hfields := execute_operation_params_fields self cap
    (mk_operation_params operation dataset domain datasets dataset_path standard standard_version) st
  cases hE : execute_operation self cap
      (mk_operation_params operation dataset domain datasets dataset_path standard
        standard_version) st with
  | mk res pr =>
    obtain ⟨params', st'⟩ := pr
    rw [hE] at hex hfields
    simp only at hex
    subst hex
    have hgr_eq : params'.grouping = g := by
      have := hfields.1
      simp only [mk_operation_params, hg, Option.getD_some] at this
      exact this
    have hid' : params'.operation_id = operation.id := by
      have := hfields.2
      simp only [mk_operation_params] at this
      exact this
    have hne' : params'.grouping ≠ [] := by rw [hgr_eq]; exact hne
    constructor
    · simp only [perform_rule_operations, hops, perform_operations_loop, hdp, hE,
        handle_grouped_frame rf params' hne', hg, Option.isSome_some, if_true, hgr_eq, hid']
    · intro hcontr
      have h1 : some (g ++ [operation.id]) = operation.group :=
        congrArg Operation.group hcontr
      rw [hg] at h1
      have h2 := Option.some.inj h1
      have h3 := congrArg List.length h2
      simp at h3

/-- The C9 witness operation: grouped by USUBJID. -/
def opC9 : Operation :=
  { id := "op9", operator := "get_grouped", name := "AESEQ", domain := none,
    group := some ["USUBJID"] }

/-- The C9 witness rule holding the grouped operation. -/
def ruleC9 : Rule :=
  { domains := none, classes := none, conditions := ⟨[]⟩, operations := [opC9],
    output_variables := [] }

/-- The C9 witness capability table: the grouped capability returns a frame
keyed by the grouping column. -/
def dpC9 : String → Option (OperationParams → OpResult) :=
  fun nm =>
    if nm == "get_grouped" then
      some (fun _ => .frame ⟨[("USUBJID", [.vstr "S1"]), ("AESEQ", [.vint 3])]⟩)
    else none

/-- Witness for C9 at the concrete grouped scenario: after the run the rule's
operation carries group USUBJID, op9 — not the declared group USUBJID. -/
theorem grouped_operation_mutates_rule_witness :
    (perform_rule_operations dsC3 dpC9 ruleC9 wdC3 "AE" [] "study/ae.xpt" "sdtm" "3-4"
        ⟨[], 0, 0⟩).snd.fst.operations
      = [{ opC9 with group := some (["USUBJID"] ++ [opC9.id]) }]
    ∧ { opC9 with group := some (["USUBJID"] ++ [opC9.id]) } ≠ opC9 :=
  grouped_operation_mutates_rule dsC3 dpC9 ruleC9 wdC3 "AE" [] "study/ae.xpt" "sdtm" "3-4"
    ⟨[], 0, 0⟩ opC9 ["USUBJID"]
    (fun _ => .frame ⟨[("USUBJID", [.vstr "S1"]), ("AESEQ", [.vint 3])]⟩)
    ⟨[("USUBJID", [.vstr "S1"]), ("AESEQ", [.vint 3])]⟩
    (by decide) (by decide) (by decide) rfl (by decide)

/-- C4 counterexample: a rule declaring both a detectable included class and
an excluded class fetches the dataset's class twice in one
rule_applies_to_class check, not exactly once. -/
theorem class_gate_fetches_twice :
    (rule_applies_to_class ⟨fun _ => ⟨[]⟩, some "Events", false⟩
        { domains := none, classes := some ⟨["Events"], ["Interventions"]⟩,
          conditions := ⟨[]⟩, operations := [], output_variables := [] }
        "study/ae.xpt" []).snd = 2
    ∧ (rule_applies_to_class ⟨fun _ => ⟨[]⟩, some "Events", false⟩
        { domains := none, classes := some ⟨["Events"], ["Interventions"]⟩,
          conditions := ⟨[]⟩, operations := [], output_variables := [] }
        "study/ae.xpt" []).snd ≠ 1 := by
  refine ⟨by decide, by decide⟩

/-- C4 (amended): rule_applies_to_class fetches the dataset's class once per
applicable non-empty class list — once for the included check when the
detectable-filtered Include list is non-empty, once more for the excluded
check when the Exclude list is non-empty — hence zero, one or two fetches per
check, never more. -/
theorem class_gate_fetch_count (self : DataService) (rule : Rule) (file_path : String)
    (datasets : List DatasetDescriptor) :
    (rule_applies_to_class self rule file_path datasets).snd
      = (if !(((rule.classes.getD ⟨[], []⟩).Include).filter
            (fun c => DETECTABLE_CLASSES.contains c)).isEmpty then 1 else 0)
        + (if !((rule.classes.getD ⟨[], []⟩).Exclude).isEmpty then 1 else 0)
    ∧ (rule_applies_to_class self rule file_path datasets).snd ≤ 2 := by
  have heq : (rule_applies_to_class self rule file_path datasets).snd
      = (if !(((rule.classes.getD ⟨[], []⟩).Include).filter
            (fun c => DETECTABLE_CLASSES.contains c)).isEmpty then 1 else 0)
        + (if !((rule.classes.getD ⟨[], []⟩).Exclude).isEmpty then 1 else 0) := by
    unfold rule_applies_to_class
    cases hinc : (((rule.classes.getD ⟨[], []⟩).Include).filter
        (fun c => DETECTABLE_CLASSES.contains c)).isEmpty <;>
      cases hexc : ((rule.classes.getD ⟨[], []⟩).Exclude).isEmpty <;>
        simp only [hinc, hexc, Bool.not_false, Bool.not_true, reduceIte] <;> rfl
  refine ⟨heq, ?_⟩
  rw [heq]
  cases (((rule.classes.getD ⟨[], []⟩).Include).filter
      (fun c => DETECTABLE_CLASSES.contains c)).isEmpty <;>
    cases ((rule.classes.getD ⟨[], []⟩).Exclude).isEmpty <;> decide
